import Mathlib

/-!
Verification of the Roche-potential utilities of `Utils/Binary.py` (Icarus).

The potential evaluator and the three Newton solvers (`Radius`, `Radii`, `Saddle`)
are embedded shallowly over an arbitrary linear ordered field `K` together with an
abstract square-root function `sqrt : K → K`; the intended instantiations are
`(ℝ, Real.sqrt)` for analytic statements and `(ℚ, Rat.sqrt)` for concrete
evaluations (every concrete input used below makes each `sqrt` argument a perfect
square of a rational, so `Rat.sqrt` computes the exact real value there).

The C snippets inlined in the Python source are loops on `double` state; they are
embedded as fuel-indexed recursions, the fuel being the number of loop bodies the
iteration cap still allows (`Radius`/`Radii` cap at `nmax = 50`; `Saddle` has no
cap, so its loop is modelled as an `Option`-valued recursion over arbitrary fuel).
Numeric literals of the source are kept as exact rationals: `0.00001 = 1/100000`,
`-99.99 = -(9999/100)`, `0.5 = 1/2`.  Squares and cubes written `x*x` or `x**2`
in the source are written `x^2` here.
-/

namespace Icarus

variable {K : Type*} [LinearOrderedField K]

/-- Result record of the potential evaluator: the source functions return the
tuple `(rc, rx, dpsi, dpsidx, dpsidy, dpsidz, psi)`. -/
structure PotentialSample (K : Type*) where
  rc : K
  rx : K
  dpsi : K
  dpsidx : K
  dpsidy : K
  dpsidz : K
  psi : K

/-- Transcription of `Potential(x, y, z, q, qp1by2om2)` (Utils/Binary.py, lines
139-158): the 5-argument potential evaluator taking the rotational coefficient
`qp1by2om2` directly. -/
def Potential (sqrt : K → K) (x y z q qp1by2om2 : K) : PotentialSample K :=
  let rc2 := x^2 + y^2 + z^2
  let rx := sqrt (rc2 + 1 - 2*x)
  let rc := sqrt rc2
  let psi := 1/rc + q/rx - q*x + qp1by2om2*(rc2 - z^2)
  let dpsi := -1/rc^3 - q/rx^3
  let dpsidx := x*(dpsi + 2*qp1by2om2) + q*(-1 + 1/rx^3)
  let dpsidy := y*(dpsi + 2*qp1by2om2)
  let dpsidz := z*dpsi
  ⟨rc, rx, dpsi, dpsidx, dpsidy, dpsidz, psi⟩

/-- Transcription of `Get_potential(x, y, z, q, omega=1.)` (lines 56-66): the
convenience form that accepts `omega` and derives `qp1by2om2 = (q+1.)/2.*omega**2`
internally; its remaining body repeats `Potential` verbatim. -/
def Get_potential (sqrt : K → K) (x y z q omega : K) : PotentialSample K :=
  let qp1by2om2 := (q+1)/2*omega^2
  let rc2 := x^2 + y^2 + z^2
  let rx := sqrt (rc2 + 1 - 2*x)
  let rc := sqrt rc2
  let psi := 1/rc + q/rx - q*x + qp1by2om2*(rc2 - z^2)
  let dpsi := -1/rc^3 - q/rx^3
  let dpsidx := x*(dpsi + 2*qp1by2om2) + q*(-1 + 1/rx^3)
  let dpsidy := y*(dpsi + 2*qp1by2om2)
  let dpsidz := z*dpsi
  ⟨rc, rx, dpsi, dpsidx, dpsidy, dpsidz, psi⟩

/-- Transcription of `Get_radius(r, cosx, cosy, cosz, psi0, q, omega)` (lines
68-75): one potential evaluation at `r*(cosx, cosy, cosz)` followed by
`dr = -(psi-psi0)/dpsidr`; no loop, no guard, no sentinel. -/
def Get_radius (sqrt : K → K) (r cosx cosy cosz psi0 q omega : K) : K :=
  let x := r*cosx
  let y := r*cosy
  let z := r*cosz
  let P := Get_potential sqrt x y z q omega
  let dpsidr := P.dpsidx*cosx + P.dpsidy*cosy + P.dpsidz*cosz
  let dr := -(P.psi - psi0)/dpsidr
  dr

/-- Transcription of `Get_saddle(x, q, omega=1.)` (lines 77-83): derives
`qp1by2om2 = (q+1.)/2.*omega**2`, performs one Newton step for the saddle using
the second derivative, and returns `dx/x` for the updated `x`. -/
def Get_saddle (sqrt : K → K) (x q omega : K) : K :=
  let qp1by2om2 := (q+1)/2*omega^2
  let P := Get_potential sqrt x 0 0 q omega
  let d2psidx2 := P.dpsi + 3*(x^2/P.rc^5 + q*(x-1)^2/P.rx^5) + 2*qp1by2om2
  let dx := -P.dpsidx/d2psidx2
  let x' := x + dx
  let ratio := dx/x'
  ratio

/-- The body of `Get_saddle` with the rotational coefficient passed directly
instead of being derived from `omega`; comparison target for the claim about
which coefficient the `omega` forms derive. -/
def Get_saddle_coeff (sqrt : K → K) (x q qp1by2om2 : K) : K :=
  let P := Potential sqrt x 0 0 q qp1by2om2
  let d2psidx2 := P.dpsi + 3*(x^2/P.rc^5 + q*(x-1)^2/P.rx^5) + 2*qp1by2om2
  let dx := -P.dpsidx/d2psidx2
  let x' := x + dx
  let ratio := dx/x'
  ratio

/-- One execution of the do-while body of `Radius` (lines 173-201 of the inlined
C code): evaluates the potential at `r*(cosx, cosy, cosz)`, forms the Newton step
`dr = (psi-psi0)/dpsidr`, and updates `r` (halving instead of subtracting when
`r - dr < 0`).  Returns the pair `(dr, updated r)`. -/
def radiusBody (sqrt : K → K) (cosx cosy cosz psi0 q qp1by2om2 r : K) : K × K :=
  let x := r*cosx
  let y := r*cosy
  let z := r*cosz
  let rc2 := x^2 + y^2 + z^2
  let rc := sqrt rc2
  let rx := sqrt (rc2 + 1 - 2*x)
  let rx3 := rx^3
  let psi := 1/rc + q/rx - q*x + qp1by2om2*(rc2 - z^2)
  let dpsi := -1/rc^3 - q/rx3
  let dpsidx := x*(dpsi + 2*qp1by2om2) + q*(1/rx3 - 1)
  let dpsidy := y*(dpsi + 2*qp1by2om2)
  let dpsidz := z*dpsi
  let dpsidr := dpsidx*cosx + dpsidy*cosy + dpsidz*cosz
  let dr := (psi - psi0)/dpsidr
  (dr, if r - dr < 0 then (1/2)*r else r - dr)

/-- The do-while loop of `Radius` (lines 170-203).  The counter check
`if (i > nmax) { r = -99.99; break; }` sits at the top of the body, so with
`fuel` bodies still allowed, exhausting the fuel returns the sentinel `-99.99`;
the loop repeats while `fabs(dr) > 0.00001`. -/
def radiusGo (sqrt : K → K) (cosx cosy cosz psi0 q qp1by2om2 : K) : ℕ → K → K
  | 0, _ => -(9999/100)
  | fuel+1, r =>
    let p := radiusBody sqrt cosx cosy cosz psi0 q qp1by2om2 r
    if 1/100000 < |p.1| then radiusGo sqrt cosx cosy cosz psi0 q qp1by2om2 fuel p.2
    else p.2

/-- Number of loop bodies `radiusGo` executes before returning (the sentinel
path at exhausted fuel executes none). -/
def radiusSteps (sqrt : K → K) (cosx cosy cosz psi0 q qp1by2om2 : K) : ℕ → K → ℕ
  | 0, _ => 0
  | fuel+1, r =>
    let p := radiusBody sqrt cosx cosy cosz psi0 q qp1by2om2 r
    if 1/100000 < |p.1| then radiusSteps sqrt cosx cosy cosz psi0 q qp1by2om2 fuel p.2 + 1
    else 1

/-- Transcription of `Radius(cosx, cosy, cosz, psi0, r, q, qp1by2om2)` (lines
160-215): the single-direction Newton solver with `nmax = 50`. -/
def Radius (sqrt : K → K) (cosx cosy cosz psi0 r q qp1by2om2 : K) : K :=
  radiusGo sqrt cosx cosy cosz psi0 q qp1by2om2 50 r

/-- One lane of `Radii` (lines 229-258 of its inlined C code): the source
duplicates the whole `Radius` loop per direction, with `rout(i)` initialised to
the shared starting radius and the same constants; transcribed separately here,
duplication included. -/
def radiiGo (sqrt : K → K) (cosx cosy cosz psi0 q qp1by2om2 : K) : ℕ → K → K
  | 0, _ => -(9999/100)
  | fuel+1, rout =>
    let x := rout*cosx
    let y := rout*cosy
    let z := rout*cosz
    let rc2 := x^2 + y^2 + z^2
    let rc := sqrt rc2
    let rx := sqrt (rc2 + 1 - 2*x)
    let rx3 := rx^3
    let psi := 1/rc + q/rx - q*x + qp1by2om2*(rc2 - z^2)
    let dpsi := -1/rc^3 - q/rx3
    let dpsidx := x*(dpsi + 2*qp1by2om2) + q*(1/rx3 - 1)
    let dpsidy := y*(dpsi + 2*qp1by2om2)
    let dpsidz := z*dpsi
    let dpsidr := dpsidx*cosx + dpsidy*cosy + dpsidz*cosz
    let dr := (psi - psi0)/dpsidr
    let rout' := if rout - dr < 0 then (1/2)*rout else rout - dr
    if 1/100000 < |dr| then radiiGo sqrt cosx cosy cosz psi0 q qp1by2om2 fuel rout'
    else rout'

/-- Transcription of `Radii(cosx, cosy, cosz, psi0, r, q, qp1by2om2)` (lines
217-281): the batch solver, one independent lane per direction, every lane
starting from the same `r`.  The OpenMP parallel for over independent lanes is
modelled by its sequential per-lane semantics (`List.map`). -/
def Radii (sqrt : K → K) (dirs : List (K × K × K)) (psi0 r q qp1by2om2 : K) :
    List K :=
  dirs.map (fun d => radiiGo sqrt d.1 d.2.1 d.2.2 psi0 q qp1by2om2 50 r)

/-- One execution of the do-while body of `Saddle` (lines 290-299): a Newton
step on the axial derivative using the on-axis second derivative, with
`rc = fabs(x)`.  Returns the pair `(dx, updated x)`. -/
def saddleBody (sqrt : K → K) (q qp1by2om2 x : K) : K × K :=
  let rc := |x|
  let rx := sqrt (rc^2 + 1 - 2*x)
  let rx3 := rx^3
  let dpsi := -1/rc^3 - q/rx3
  let dpsidx := x*(dpsi + 2*qp1by2om2) + q*(1/rx3 - 1)
  let d2psidx2 := dpsi + 3*(x^2/rc^5 + q*(x-1)^2/rx^5) + 2*qp1by2om2
  let dx := -dpsidx/d2psidx2
  (dx, x + dx)

/-- The do-while loop of `Saddle` (lines 283-307), which repeats while
`fabs(dx/x) > 0.00001` (the test uses the updated `x`) and has no iteration cap;
modelled as a fuel-indexed recursion returning `none` when the given fuel is
exhausted without the loop having exited. -/
def saddleGo (sqrt : K → K) (q qp1by2om2 : K) : ℕ → K → Option K
  | 0, _ => none
  | fuel+1, x =>
    let p := saddleBody sqrt q qp1by2om2 x
    if 1/100000 < |p.1/p.2| then saddleGo sqrt q qp1by2om2 fuel p.2
    else some p.2

/-- Modelled from the spec: section 6 lists "Constants exposed as configuration:
convergence tolerance ε, iteration cap nmax, failure sentinel value — all
overridable, defaulting to 1e-5, 50, -99.99 respectively".  This is the loop of
section 4.2 with the tolerance and sentinel passed as explicit configuration
(the cap is the fuel); no such parameters exist in the source, where all three
constants are hard-coded. -/
def radiusCfgGo (sqrt : K → K) (eps sentinel : K)
    (cosx cosy cosz psi0 q qp1by2om2 : K) : ℕ → K → K
  | 0, _ => sentinel
  | fuel+1, r =>
    let p := radiusBody sqrt cosx cosy cosz psi0 q qp1by2om2 r
    if eps < |p.1| then
      radiusCfgGo sqrt eps sentinel cosx cosy cosz psi0 q qp1by2om2 fuel p.2
    else p.2

/-- Modelled from the spec: the single-direction solver with the convergence
tolerance, iteration cap and failure sentinel supplied by the caller. -/
def RadiusCfg (sqrt : K → K) (eps : K) (nmax : ℕ) (sentinel : K)
    (cosx cosy cosz psi0 r q qp1by2om2 : K) : K :=
  radiusCfgGo sqrt eps sentinel cosx cosy cosz psi0 q qp1by2om2 nmax r

/-- Starting point of the concrete saddle evaluation: `x0 = 1 - 1/100000`. -/
def saddleX0 : ℚ := 99999/100000

/-- The Newton step the saddle loop computes at `saddleX0` with `q = 56`,
`qp1by2om2 = 57/2` (exact rational arithmetic). -/
def saddleDx : ℚ := -55998320016799885001739982800057/11199664003359994699829001709994300000

/-- The updated point after that step, `saddleX0 + saddleDx`. -/
def saddleX1 : ℚ := 111994960083999442999970016799944/111996640033599946998290017099943

/-- Iterates of the saddle loop from `x0 = 1/2` with `q = 56`, `qp1by2om2 = 57/2`
(exact rational arithmetic), and the Newton steps producing them. -/
def scnX1 : ℚ := 292/969

def scnX2 : ℚ := 283044139621975934/1771038790374617013

def scnX3 : ℚ := 4643244773214683301009224736201737939152948696221332964385150941059312949174379873681094244474432497921120051/27484733375300074310382214121372740847819944807921213173195189328320734485936599823637242422581369919752627007

def scnX4 : ℚ := 8425310788009699674157638181490142326104158603824035446039144620348814034653233309322870472950223883538649048136063205169073292571177950037469316379944506150648396956748074525046848239154035515534156568504779358142125816953330757579359910850377403178604257859249383377342999570195335090484199673431420953025413174416738620672187116418246228982618880500555511654471139444609358055535603861454361475170006236966532489899967182495910328891976269983128151299225328411345070987676443807210280609133837418073317017711490961453414064052067529574692057933771787618278919555716460536574367848170153993005672401671035544864955942943953616521554900539057023441724117/49727604689581016109969292779348872933983128214881247723997256568149053627174192531927240746119846153963523011206232796853475706064732097608550125659843580644605639675461709089249488986878795300457941610416799030318314288027434774978554455152235454137743064257688102551122549757760323010998288050835875145888016039610088395553707311919056770469871486380121701825375580996556951308614137817314319849426223374619619127931361348498974636800128574556465826126501147745595001988087689741495556904497524847472390608563817742115247412986693610303086838082560800916661899870800446404057069512995001394281162649682923647779118645903403060535663034228904270023773119

def scnX5 : ℚ := 592302542485993821643105427998360583290832925150103582379221444750244491891582204753571158424161109482032515378869036858667176476065009296840781605923698234931545118019849241361980668190581709009074631081634597351729346249401364907068799325219364358218588291982926314808988145310224405140643705020981546220658806376876566572311160075961877211500057220185541766429381921348555125675731309251691761975942748395681847569032284313230046506529153553523082844377614918501996548861833210565705961253612533835630280336973801436971170540182155282331299791029826710873688386806871073716852117647430989947948353909735865620706125992634429103528041789149823704445602214127830101002261816765111425655136558098636841399884095965554235072552908613217521662840621471583177298705417779045764505627990085923828010742393823185175638027111519117325674169217295712111825189196189604961930317933679365589455020388648022949950938313366004550457876587417092171474878584966828335329550937671046639751885608273682837394114327154288628386238364779827032176675155346604835305950128074127116994722383549033281019184922225560551580006871590415640265457164191968690717009503463426375105465788894820912016806684448157344422117165153244218919933027573774124824510861909575876966134980137043192737597678820947785216788583996294607142194012001105675912004717422900808537695769347044819514896235828739336977697387375286313293527148375721889927713971674649721032334436728525658876295976353119660896451637321567650167751891197874290764314255290885434074788147483559609131263468641314060049905295614735025535317460315693030998565081564640373524297131588425644538258290840850019334150144711561362756302742935427855947677782030968017272762574906923492643695131764432686830334635146723882769172125173821103756858319514374737613633478523784653465271037310029544134709267826278389003039780777338863250539825705473867180418300514297828872632721056635856046966157295547923236507115571253348453650577475770727968485889788250753615970989741945035663189871914928039221272284679928629346439048815220967579783665926284178970817813347827340323029803221888613061546171120882924877072228022743576200123424835321705985111035606442757143560654620547739150909846774065175427519519666013644942947361436920401277522711328530323806697755589805550828204468314893859450332851876921708320475716831888120611932185962773561856617537149898048373840908646661043348368951637357666056064895861810276445823140336922658034409199800357629128100871498128529601794411538743692838230894956988294637407329385844060330529214939875250518866619184871650775922879115362204482427625047822862961506810730835037163636642083171251882286423055743601532838467492503570784328970626794933404428128755214251177736325286854492193214566738832725077220330356912900306914294487079678912416876306662827094661150426950990131240269140728099345295681241335217044619383477308191703996945760864879004264817504583996019133450098986558379938726906813500197049686371585084984251033164537434206676084162992987910417584656264183414309250467732367085275912699446791257049743593437681574489018017899816730310638197302273079760211495870702364646786771627173558934732850434535911691119033875734027177380489435747231704362672211735020267706468228904546742778235054286831139432143806369596091447073651906332967028576847699499237828906766530428840409762691124828018464822490817129669558560440557137097996544351499389048469309010279674997226847324114679103017558251423465917812656243097049268484186354988232292217776351041626743149404274419554650842059035304897998286010592716347440804912731780792342867081567016303539724727490984785451115905874401215246585843789660944608370436090529528316934613879068469036977645726143453473189088566239775068811197309976894607239549002432029578654549037011275469906763908282511810078766262717332738353406439947110125332574654720118100030862835472498644565174083277853233568511231109551893719046602260434849771/3495844687213641209614828810548160624844957770983129757408588419772873186336699862677823693537497186219455836933343643794924248987642091189457793171585163371634547975133992762511900239593353666053545668893279721935104029058106328451598105021122872425949862042626608139211337859282119262909274104361469851704642947339090644988145895540815546270774968729597894810769323377230710368518759643989723680747041922703039316776378999163628053830017285698920798212483703551901228401771585864527400055423107107130957907711725050627497940228011171705540401870031492215844573931907236877963875608292878611512995177149949400444997403783987592782177697098401366979560516665960585216683405860923467771004717741174294784881894396499694358688877763525658503324302318470476986401578719804566473364179579537054747427397749000468654392348701960313977420008994615393005953568363882524868867339091162479022864402457272638554521119290027875013693672424169752188466696169804013667747863536312481889411426757877884188703607898721248715117801067962700058470249016818770338890075171540917077233750538698891703819665029416312572858751298375809013046914626765397489703543735980224331999377540402225861477336436042516730763654158436475486974757351479226497728802288349707910764595338869121148113312480649319847441232258070897147786358149778190403905947008753815925882241325580775236784172384283101646285803728409233502427057034419426498347149227231460769716442090045275752355022651401929504170589577495890788406590001317744813589246430901373221824737363112712008471619361762830308478075450503294821125082123429572191839333887063805550168757655184594946195504417622246542650604483576723972531415500952770555214447449314165712127701260405410789278804540807155184693890981574027595595271236315552777764089736358645140692302729978281935554814939940760215536186706675414078757808950678060136865136801021965080652181014865627135146019786999621958013957562763149203288395613455691893382409030076063467507885812032733864581355798120342102182020834146671617485016845054411916924918130283410015469954539709757772051432135144623190708350016206479142666383152092688499321147498921797947007578531367602777404094634301509448166944670331918150353389484618467098984667623627828358580370697953788744050449287628344066200563498616806169681542070625067419761285399379720380828286086357456259526590324407912547270779562653864120267672229688044809976845473505203872491575612807443125496586075893696794145866820922545334029353452380148720888927737639121529202697931827519681284105549056652835330731876127372659881574708486032502514896213338678139972994443102020371500126450671679303551465908978368943462748530976217619088021647255663199370190859011286529660457479885852964064083868955983118108528663569979426408498747533943605710282890069703273268406051139188424596689183626741263109398449829836145324448570157224824573302858507348685552168788590995273647572815116855649482468108388919113060504220262153346301250826209512101736310564375909205779622593336458261934767525624015472300614275047256523399267535499921627010624370272478200127151606457414930676191081279686620633360342154970644688381826276278992875236207519918771319086374678416655525603729995532149664906987494278219257201719553888975306673466285506482600376833213145627705147836490428883626175802332256887926133871714568418538820528379123767967045211760516140119881736991453080286288012307347070534978389108072097684193533737352621540878210765889429278138911319010282972959180199202784874474168710795096265455670442200703062741826400651906998238328570416026463350806914543718155222358991927620609626868365270972352930423261135518223695305067731769462337090757015173617586261625360361547429960951546571132098081487148060253812609185532758214452672059402776990105140487900218106091620436252688350355434283102097255735788053729253081765960046569498803690522294480260097399753886467011308251743073595555941833169690359298946229297

/-- Newton step number 1 of the same run. -/
def scnDx1 : ℚ := -385/1938

/-- Newton step number 2 of the same run. -/
def scnDx2 : ℚ := -1420313190033295250/10035886478789496407

/-- Newton step number 3 of the same run. -/
def scnDx3 : ℚ := 136649398466044782874958884345607373132044863008254323784159296531158909086565132105590437393310193334887650596186453828125/14982003370501787692744143660163223155611475785325011720331170255502831587574459103556902047501535429709266291961951479921659

/-- Newton step number 4 of the same run. -/
def scnDx4 : ℚ := 206211158234205861443562336808718876281197900137967043189084459473338583416291006808907336646155563399173099704104280254760301572435199277304820891471434117841373778992730286758154281849487255939198255526124714492105491067840884443118809430566305371903008153974845684364040636559255995076370212104946293512854013534161171200601834698156497546073751567029459972376904403194599529815097346423293261177669841180201627896225939627889991194268585804055654934005526742534483083308662925799131753100991255991606966999083570607700263882514218089575338819640423435013926950622438480720785759961959900701069783396394427133822266856108320494008145560177946381353718369425619862245273037276521203553661126201578121457015749260349868596186566576039299652134868835449218750/420667884359943319460840588430413540723927237581278875088986861104533131462345494027403334902391294313584911262896920872262149383769439711514109209173636779452970559744058545276078002281461061728537418126399091779379612432582244153126242531158035816240062149721896854173509933903516531941508066875213470031093107158672790389563827209592734407716825585551161365252492854026715306707289343866173959836235844538620228097616698542951384254533630095517538534935883854998175631041329824059964820243650111562773721058630195184385903702442688282157851718013078684470962764449292976968896367234505642596680193264937416186986694491737972366253547978401477648037357558068604650829548546501793371078016106444325918831978047942325156622824332062233704544403846692803798830417

/-- Newton step number 5 of the same run. -/
def scnDx5 : ℚ := 64245303102463103719197010836675200728847479546295421283051298819938965901615833157210153478570265464806340292528773169687037484586622696268478340050215216371402057246208154717408002583794270177013300342256286621992957600695903226966610395979608501156215822467503137448143325313038549487557868924358316986763341905302685017580213368176482172799818544877936493805075338639335131919378816196799574929319439353861724204445333294507888129232270450066034643337989804891598567182345836304890343387537403225453779060385987200808010328864928228932412954241392274078593295484741207175918427761115587101862744310298833561851485327363804486757627605996306515184648315736013435913122520139073555468456954331629511478789338121343579966185443013880121950710885586372982594569896638441424944775201194307260393462222784410409458278828512391212724831086024454200290588620384210324980943475625077071921197165074452322329156142719962925295102441333285637049037933120276379228945066592458463365635879462080155465195159498917733817185556365900356039577821941704150556501542819523964967307252003526409991409580880564805434487866861266014087025851451687660055189838353399078318757401141793404867824944788938673092338041058536851056685809759353098895414291883207906370417540027030703578580524399054040525073365802300477624914583936910532139238341382962439461253924167766931759845840707353539130196742553850941687404858691515111511146263025230797785553632855166781383799382597153974965186858091286725679551715671732171263709914910966713612179956214237168646031367975132406747927756662597306934471056829401667961116629274563565374180697038693377354114310192995094779570651719236858677981405944572666258706762797429819499818677796100528299065385050294139494570052864760301452945107256526828272332434094300759045252053160374538735513241828713925896867459304054440965490714317756795765213718706808228395390720348576177421910030458305674234888034264266744126549256523965373394570107146981764211463374815075909838025075756396547031025115791800894797630013821655481267044054827040803139593811490404511116497385977686630824747945511742577960176735921609761992386725829990684475982729940940859007061985754326412730751972227773891603234558236144152315946305994681337742849007620810931951423250357395558997782598837184771124257437645677344624864490857540182656324287446799720729360240631339517141456690004828872843532113613033015628476470069990675651864089979730413883813748353122794956450119102312375295161791578530883844970371765667389496258330659434108235578806425184187565003063476005362321870378410778651560955577198130988569058693067739800879907238936174496644737862230655466436654495576694329915419646148827886796102177019151985093999900429595922961002767517757949171788172258496258616649733956378299136860340976458473191544943197365898496868623346720538117154099952313070391681952112526998940644738257882755280114894338522730308960040245618819831470953581788769679558020012412842243778304276608560866435703269294394244060710143776761961658471383710839547919251607227812866272572743933657123936156671997815690571775014385249180640080142412395897559042637965734164321390351762546774385179865298998257638787330503694374222061587475713576922950836202138428545463121041647557671960293358932732454290652753931902194383151114125787187350052737583324120298660047156874661242696984100127988505030092206287874763009020269368220212890527787220567565370580780271171885019156953027198666922306709981396959717711609056984030220368845651037359924615599570871893157442809675171475011398744657785345723757194058114179558210377893150316212482762799336752771869165318091517696591962639257268971057682168157737989479847401067846551467097998011104843044456111620412058349511825876353577432443566325080513661430832373876367513721075943820757536624008139174566305608988107097380232202475509986796737785960537893056109241722447671919872142608098234451609717900930999947667256688309461945879529498808354714232716542084694710099716453828216859593106633989911391486056679029236165105048915623337852212500810097803237070791140908850919156553174859307368953534256225817531382748647210522068490999733826426080589137706397099163395621552359175587479355046717822294785044463934561161753097923966842836830200921215001233623250538029005374250250994343036925321908410297819885111639787638722099579953193924891375162663685448973244221088637218960997969257663282512394490554794504797012515741392884306811030866987832396843499715105091714303709674395670419687336561239675462837525810893176349098288282166099891282143301903977990150451660156250000/53505688723278530329709966735525013179478336560276399723759993144867253368355901016978879529449809095778067258597580843029733604050514188122636422511932116190178596193776954248113946677024639146894421431309581044051909875494552685942760476004729143975520128389795767892949121845083642187735939559623315122513592987961815123900511860218088145272325906215581746185773954380747591976891621139635519192281737863613847073696558138582591682414060920324339442314719973148200931211353087765792252815521253572589963619172728500033890537877241030708986230409747253286395925111774639919956232623860127643908431581027981698490207055136358757335884680128779636147525098353142674688059449457542882309057715747471796239723604793280916376614529394492053849991934646152510964063242118789391653342076759924822028320021023974599377166555441464032775035968329475133046034449357569210704461165362377982477721918860907019392100141538134661508979170450383579719228365215406472767770256626787317195323475555047652764710211157271983240799490209772677489837426357544115254316820364351737715682353966674137180296167651944347236785686830616249317999291914340080279722771107658990504015405697846810196419566139436365518251885847329106221327877501186255160332999761068696191121112510066735949765156422093662127951601101600326239197788946688609573479307038617151338145863168788828025011505723775005634010442124964604081900266912075742736097938308676232907920944056006774724359348577010651347709231298931911720933981633271374971085497421097976123812906437420291866645479071967390050324367039799029533802265074052097902622711627958676497597609597093640132780845152072921689090264896610108331308042917026632988202501377180303772693911557999483588994744766134798705072846195882452278884278743095571001256125706864062473210527361214511821447868753554183614806027041625623293211378058463939978404879849206072506457734413400125839854428890985701199006814145101060486568858314333035463844640827534018432187728230709717884715656669413190427040643286904791878172233082817719310461732364999903503985655101898849251433514609544703262092622243002833277632333972804148533419036285935883650325402908302804171897957780908977518705931787075098964362655905822591984199990025781604985208253936309244471535612307688498656017450986827609554403221495789630026316582707755506983927166959817986629322136392997097492560858500260145221390621295783692844729936822464588484773146159449349838429843519466292113165036329512482964383627059075248076135133326148093957685933489571496605974336710757802114041437226615413454650517673415290064747163579964554213159728200465421908639947899488426752295751686864413047768405386796382957679871825294962960985604156855026072711471309715087663266844432391148581144542251685889206868616670127994805049396494815259942904647579273977819461211488852224082470466261497311418092267547835973287344726996695239646135949481577919089090520722103605535659933826673388048772460656405787947629476219002999231016344388892239927257396791476803853498716450279094279992891579965562754653023147828170518933407042327920463040661020223240406941509661380574617800850299110035540645600428095182365003258885165171415133647525939734904873437819130607043097699097571031476469886737260803907358268522290448776103922692516842238680322104138663247270537699347711494812170033801534518574759527754669394190103481595974118137470626982331049377023377198924094506175826221243667206733030358981559986689043821539162021379055358222708521144811474710966091291235675309282780648727123479651491344693517820931922311952811530105571809535420729113218111786493812716664544395029641375054835245174657070647785725953640372259677500663730782764914655540771890407581495768284316404650593525499640379790917941055462518802641257610493156801097658453265154391949491986937063935085673714871071826393055708999204282164143005119763782277771514125934095928309258365925245269432715247855396029865293024404832395146760685616406358363444742385815024872225396356387457828202629505807698368513141771804952470792401341173604734391500797975142084179877475334022152223638590169036558150680100508520971805694602350534246022603827181292894647776647297457974456007769088341774530700050882171136779438209438569465528047498819028158279831002083483825439055276889748954479422736399249142448974660860708527953752112598945122805294786730017241425188715549414004359839336360508257144478171221233975217322504233080167224807937711166366826467639080547508122566223563926339939395363180060235482533254325781142105058601368199757611335797335943906151761813846252662846798708363705407

/-! Helper lemmas about the loops. -/

theorem radiusBody_update_nonneg (sqrt : K → K) (cosx cosy cosz psi0 q c r : K)
    (hr : 0 ≤ r) : 0 ≤ (radiusBody sqrt cosx cosy cosz psi0 q c r).2 := by
  simp only [radiusBody]
  split
  · linarith
  · next h => linarith [not_lt.mp h]

theorem radiusGo_result_nonneg (sqrt : K → K) (cosx cosy cosz psi0 q c : K) :
    ∀ (fuel : ℕ) (r : K), 0 ≤ r →
      radiusGo sqrt cosx cosy cosz psi0 q c fuel r = -(9999/100) ∨
      0 ≤ radiusGo sqrt cosx cosy cosz psi0 q c fuel r := by
  intro fuel
  induction fuel with
  | zero => exact fun r _ => Or.inl rfl
  | succ n ih =>
    intro r hr
    by_cases h : 1/100000 < |(radiusBody sqrt cosx cosy cosz psi0 q c r).1|
    · simp only [radiusGo, if_pos h]
      exact ih _ (radiusBody_update_nonneg sqrt cosx cosy cosz psi0 q c r hr)
    · simp only [radiusGo, if_neg h]
      exact Or.inr (radiusBody_update_nonneg sqrt cosx cosy cosz psi0 q c r hr)

theorem radiusGo_dichotomy (sqrt : K → K) (cosx cosy cosz psi0 q c : K) :
    ∀ (fuel : ℕ) (r : K),
      radiusGo sqrt cosx cosy cosz psi0 q c fuel r = -(9999/100) ∨
      ∃ rp : K, |(radiusBody sqrt cosx cosy cosz psi0 q c rp).1| ≤ 1/100000 ∧
        radiusGo sqrt cosx cosy cosz psi0 q c fuel r
          = (radiusBody sqrt cosx cosy cosz psi0 q c rp).2 := by
  intro fuel
  induction fuel with
  | zero => exact fun r => Or.inl rfl
  | succ n ih =>
    intro r
    by_cases h : 1/100000 < |(radiusBody sqrt cosx cosy cosz psi0 q c r).1|
    · simp only [radiusGo, if_pos h]
      exact ih _
    · simp only [radiusGo, if_neg h]
      exact Or.inr ⟨r, le_of_not_lt h, rfl⟩

theorem radiusSteps_le_fuel (sqrt : K → K) (cosx cosy cosz psi0 q c : K) :
    ∀ (fuel : ℕ) (r : K), radiusSteps sqrt cosx cosy cosz psi0 q c fuel r ≤ fuel := by
  intro fuel
  induction fuel with
  | zero => exact fun r => le_rfl
  | succ n ih =>
    intro r
    by_cases h : 1/100000 < |(radiusBody sqrt cosx cosy cosz psi0 q c r).1|
    · simp only [radiusSteps, if_pos h]
      exact Nat.succ_le_succ (ih _)
    · simp only [radiusSteps, if_neg h]
      exact Nat.succ_le_succ (Nat.zero_le n)

theorem radiusGo_succ (sqrt : K → K) (cosx cosy cosz psi0 q c : K)
    (n : ℕ) (r : K) :
    radiusGo sqrt cosx cosy cosz psi0 q c (n+1) r
      = (if 1/100000 < |(radiusBody sqrt cosx cosy cosz psi0 q c r).1|
          then radiusGo sqrt cosx cosy cosz psi0 q c n
                 (radiusBody sqrt cosx cosy cosz psi0 q c r).2
          else (radiusBody sqrt cosx cosy cosz psi0 q c r).2) := rfl

theorem radiiGo_succ (sqrt : K → K) (cosx cosy cosz psi0 q c : K)
    (n : ℕ) (r : K) :
    radiiGo sqrt cosx cosy cosz psi0 q c (n+1) r
      = (if 1/100000 < |(radiusBody sqrt cosx cosy cosz psi0 q c r).1|
          then radiiGo sqrt cosx cosy cosz psi0 q c n
                 (radiusBody sqrt cosx cosy cosz psi0 q c r).2
          else (radiusBody sqrt cosx cosy cosz psi0 q c r).2) := rfl

theorem radiiGo_eq_radiusGo (sqrt : K → K) (cosx cosy cosz psi0 q c : K) :
    ∀ (fuel : ℕ) (r : K),
      radiiGo sqrt cosx cosy cosz psi0 q c fuel r
        = radiusGo sqrt cosx cosy cosz psi0 q c fuel r := by
  intro fuel
  induction fuel with
  | zero => exact fun r => rfl
  | succ n ih =>
    intro r
    rw [radiiGo_succ, radiusGo_succ, ih]

theorem radiusCfgGo_default_eq (sqrt : K → K) (cosx cosy cosz psi0 q c : K) :
    ∀ (fuel : ℕ) (r : K),
      radiusCfgGo sqrt (1/100000) (-(9999/100)) cosx cosy cosz psi0 q c fuel r
        = radiusGo sqrt cosx cosy cosz psi0 q c fuel r := by
  intro fuel
  induction fuel with
  | zero => exact fun r => rfl
  | succ n ih =>
    intro r
    simp only [radiusCfgGo, radiusGo, ih]

theorem saddleBody_zero_q (sqrt : K → K) (x : K) (hx : 0 < x) :
    saddleBody sqrt 0 0 x = (x/2, x + x/2) := by
  have hx0 : x ≠ 0 := ne_of_gt hx
  simp only [saddleBody, abs_of_pos hx, Prod.mk.injEq, mul_zero, zero_mul,
    zero_div, add_zero, sub_zero]
  have hd : -1/x^3 + 3*(x^2/x^5) = 2/x^3 := by
    field_simp
    ring
  have hn : -(x * (-1/x^3)) = 1/x^2 := by
    field_simp
    ring
  rw [hd, hn]
  have hq : (1/x^2) / (2/x^3) = x/2 := by
    rw [div_eq_div_iff (by positivity) (by norm_num)]
    field_simp
    ring
  exact ⟨hq, by rw [hq]⟩

theorem saddleGo_zero_q_none (sqrt : K → K) :
    ∀ (fuel : ℕ) (x : K), 0 < x → saddleGo sqrt 0 0 fuel x = none := by
  intro fuel
  induction fuel with
  | zero => exact fun x _ => rfl
  | succ n ih =>
    intro x hx
    have hb := saddleBody_zero_q sqrt x hx
    have h32 : (0:K) < x + x/2 := by linarith
    have hr : (x/2)/(x + x/2) = 1/3 := by
      rw [div_eq_iff (ne_of_gt h32)]
      ring
    have hcond : 1/100000
        < |(saddleBody sqrt 0 0 x).1 / (saddleBody sqrt 0 0 x).2| := by
      rw [hb]
      show 1/100000 < |(x/2)/(x + x/2)|
      rw [hr, abs_of_pos (by norm_num : (0:K) < 1/3)]
      norm_num
    simp only [saddleGo]
    rw [if_pos hcond, hb]
    exact ih _ h32

/-! Theorems for the claims. -/

/-- C1: for every direction, target `psi0`, initial radius `r0 > 0` and parameters
`q`, `qp1by2om2`, the `Radius` solver either returns the sentinel `-99.99` or a
radius produced by a final Newton step with `|dr| ≤ 1e-5`, and it never executes
more than `nmax = 50` loop bodies. -/
theorem radius_convergence_dichotomy (sqrt : K → K)
    (cosx cosy cosz psi0 q c r0 : K) (h : 0 < r0) :
    (Radius sqrt cosx cosy cosz psi0 r0 q c = -(9999/100) ∨
      ∃ rp : K, |(radiusBody sqrt cosx cosy cosz psi0 q c rp).1| ≤ 1/100000 ∧
        Radius sqrt cosx cosy cosz psi0 r0 q c
          = (radiusBody sqrt cosx cosy cosz psi0 q c rp).2) ∧
    radiusSteps sqrt cosx cosy cosz psi0 q c 50 r0 ≤ 50 :=
  ⟨radiusGo_dichotomy sqrt cosx cosy cosz psi0 q c 50 r0,
    radiusSteps_le_fuel sqrt cosx cosy cosz psi0 q c 50 r0⟩

/-- Witness for C1 at a concrete input. -/
theorem radius_convergence_dichotomy_witness :
    0 < (1 : ℚ) ∧
    ((Radius Rat.sqrt (-1) 0 0 0 1 1 1 = -(9999/100) ∨
      ∃ rp : ℚ, |(radiusBody Rat.sqrt (-1) 0 0 0 1 1 rp).1| ≤ 1/100000 ∧
        Radius Rat.sqrt (-1) 0 0 0 1 1 1
          = (radiusBody Rat.sqrt (-1) 0 0 0 1 1 rp).2) ∧
    radiusSteps Rat.sqrt (-1) 0 0 0 1 1 50 1 ≤ 50) :=
  ⟨by norm_num,
    radius_convergence_dichotomy Rat.sqrt (-1) 0 0 0 1 1 1 (by norm_num)⟩

/-- C3: for every starting radius `r0 > 0`, the iterate of the `Radius` update
rule (halve when `r - dr < 0`, otherwise subtract `dr`) is non-negative after
every iteration, and the solver result is the sentinel or non-negative. -/
theorem radius_iterates_nonneg (sqrt : K → K)
    (cosx cosy cosz psi0 q c r0 : K) (h : 0 < r0) :
    (∀ n : ℕ,
      0 ≤ (fun r => (radiusBody sqrt cosx cosy cosz psi0 q c r).2)^[n] r0) ∧
    (Radius sqrt cosx cosy cosz psi0 r0 q c = -(9999/100) ∨
      0 ≤ Radius sqrt cosx cosy cosz psi0 r0 q c) := by
  constructor
  · intro n
    induction n with
    | zero => simpa using h.le
    | succ m ih =>
      rw [Function.iterate_succ_apply']
      exact radiusBody_update_nonneg sqrt cosx cosy cosz psi0 q c _ ih
  · exact radiusGo_result_nonneg sqrt cosx cosy cosz psi0 q c 50 r0 h.le

/-- Witness for C3 at a concrete input. -/
theorem radius_iterates_nonneg_witness :
    0 < (1 : ℚ) ∧
    ((∀ n : ℕ,
      0 ≤ (fun r => (radiusBody Rat.sqrt (-1) 0 0 1 1 1 r).2)^[n] 1) ∧
    (Radius Rat.sqrt (-1) 0 0 1 1 1 1 = -(9999/100) ∨
      0 ≤ Radius Rat.sqrt (-1) 0 0 1 1 1 1)) :=
  ⟨by norm_num, radius_iterates_nonneg Rat.sqrt (-1) 0 0 1 1 1 1 (by norm_num)⟩

/-- C4: the batch solver `Radii` returns, index for index, exactly the value the
single-direction solver `Radius` computes for that direction with the same
`psi0`, `r0`, `q`, `qp1by2om2` (every lane starts from the same `r0`; a lane
that hits the cap contributes the sentinel only at its own index, since each
entry is computed independently of the others). -/
theorem radii_eq_map_radius (sqrt : K → K) (dirs : List (K × K × K))
    (psi0 r q c : K) :
    Radii sqrt dirs psi0 r q c
      = dirs.map (fun d => Radius sqrt d.1 d.2.1 d.2.2 psi0 r q c) ∧
    (Radii sqrt dirs psi0 r q c).length = dirs.length := by
  constructor
  · unfold Radii Radius
    simp only [radiiGo_eq_radiusGo]
  · simp [Radii]

/-- C5 (amended): the convenience forms `Get_potential` and `Get_saddle` derive
the rotational coefficient as `(q+1)/2*omega^2` — not `(q+1)/(2*omega^2)`: they
agree with the coefficient-explicit evaluators at exactly that value. -/
theorem omega_forms_derive_coefficient (sqrt : K → K) (x y z q omega : K) :
    Get_potential sqrt x y z q omega
      = Potential sqrt x y z q ((q+1)/2*omega^2) ∧
    Get_saddle sqrt x q omega
      = Get_saddle_coeff sqrt x q ((q+1)/2*omega^2) :=
  ⟨rfl, rfl⟩

/-- C6: the `Saddle` loop has no iteration cap and need not terminate: with
`q = 0`, `qp1by2om2 = 0` and starting point `x0 = 2` every step is `dx = x/2`,
so `|dx/x| = 1/3 > 1e-5` forever and the loop never exits, whatever fuel it is
given (and whatever the square-root function, which is multiplied by `q = 0`). -/
theorem saddle_no_iteration_guard (sqrt : K → K) (fuel : ℕ) :
    saddleGo sqrt 0 0 fuel 2 = none :=
  saddleGo_zero_q_none sqrt fuel 2 (by norm_num)

theorem saddleGo_some_final_step (sqrt : K → K) (q c : K) :
    ∀ (fuel : ℕ) (x0 y : K), saddleGo sqrt q c fuel x0 = some y →
      ∃ xp : K, y = (saddleBody sqrt q c xp).2 ∧
        |(saddleBody sqrt q c xp).1 / y| ≤ 1/100000 := by
  intro fuel
  induction fuel with
  | zero => intro x0 y h; exact absurd h (by simp [saddleGo])
  | succ n ih =>
    intro x0 y h
    by_cases hc : 1/100000
        < |(saddleBody sqrt q c x0).1/(saddleBody sqrt q c x0).2|
    · refine ih (saddleBody sqrt q c x0).2 y ?_
      simpa only [saddleGo, if_pos hc] using h
    · have h2 : (saddleBody sqrt q c x0).2 = y := by
        have := h
        simp only [saddleGo, if_neg hc, Option.some.injEq] at this
        exact this
      refine ⟨x0, h2.symm, ?_⟩
      rw [← h2]
      exact le_of_not_lt hc

/-- C8 (amended): the tolerance, iteration cap and sentinel of the `Radius`
solver are fixed at `1e-5`, `50` and `-99.99`: for all inputs the solver equals
the configuration-passing model of the spec instantiated at exactly these
defaults (and at no others, see the counterexample) — the source hard-codes the
three constants and offers callers no way to override them. -/
theorem radius_uses_fixed_constants (sqrt : K → K)
    (cosx cosy cosz psi0 r q c : K) :
    Radius sqrt cosx cosy cosz psi0 r q c
      = RadiusCfg sqrt (1/100000) 50 (-(9999/100)) cosx cosy cosz psi0 r q c :=
  (radiusCfgGo_default_eq sqrt cosx cosy cosz psi0 q c 50 r).symm

/-- C10: `Get_radius` is a single-step helper: it performs one potential
evaluation and returns exactly the negation of the Newton step `dr` that one
body of the `Radius` loop would compute at the same point (with the coefficient
the `omega` form derives); no loop, no positivity guard, no sentinel appear in
its definition. -/
theorem get_radius_single_newton_increment (sqrt : K → K)
    (r cosx cosy cosz psi0 q omega : K) :
    Get_radius sqrt r cosx cosy cosz psi0 q omega
      = -((radiusBody sqrt cosx cosy cosz psi0 q ((q+1)/2*omega^2) r).1) := by
  simp only [Get_radius, Get_potential, radiusBody]
  ring

/-- C2: the `Potential` evaluator returns exactly the spec's formulas: with
`rc = sqrt(x²+y²+z²)` and `rx = sqrt(rc²+1−2x)`, it returns
`psi = 1/rc + q/rx − q·x + qp1by2om2·(rc²−z²)`, `dpsi = −1/rc³ − q/rx³`,
`dpsidx = x·(dpsi+2·qp1by2om2) + q·(1/rx³−1)`, `dpsidy = y·(dpsi+2·qp1by2om2)`,
`dpsidz = z·dpsi`.  It is a pure function of its arguments (it is embedded as
one). -/
theorem potential_evaluator_matches_spec (x y z q c : ℝ)
    (hrc : 0 < (Potential Real.sqrt x y z q c).rc)
    (hrx : 0 < (Potential Real.sqrt x y z q c).rx) :
    (Potential Real.sqrt x y z q c).rc = Real.sqrt (x^2 + y^2 + z^2) ∧
    (Potential Real.sqrt x y z q c).rx
      = Real.sqrt ((Potential Real.sqrt x y z q c).rc^2 + 1 - 2*x) ∧
    (Potential Real.sqrt x y z q c).psi
      = 1/(Potential Real.sqrt x y z q c).rc
        + q/(Potential Real.sqrt x y z q c).rx - q*x
        + c*((Potential Real.sqrt x y z q c).rc^2 - z^2) ∧
    (Potential Real.sqrt x y z q c).dpsi
      = -1/(Potential Real.sqrt x y z q c).rc^3
        - q/(Potential Real.sqrt x y z q c).rx^3 ∧
    (Potential Real.sqrt x y z q c).dpsidx
      = x*((Potential Real.sqrt x y z q c).dpsi + 2*c)
        + q*(1/(Potential Real.sqrt x y z q c).rx^3 - 1) ∧
    (Potential Real.sqrt x y z q c).dpsidy
      = y*((Potential Real.sqrt x y z q c).dpsi + 2*c) ∧
    (Potential Real.sqrt x y z q c).dpsidz
      = z*(Potential Real.sqrt x y z q c).dpsi := by
  have h0 : (0:ℝ) ≤ x^2 + y^2 + z^2 := by positivity
  simp only [Potential]
  refine ⟨trivial, ?_, ?_, trivial, by ring, trivial, trivial⟩
  · rw [Real.sq_sqrt h0]
  · rw [Real.sq_sqrt h0]

/-- Witness for C2 at the point `(1/2, 0, 0)` with `q = 1`, `qp1by2om2 = 1`. -/
theorem potential_evaluator_matches_spec_witness :
    0 < (Potential Real.sqrt (1/2) 0 0 1 1).rc ∧
    0 < (Potential Real.sqrt (1/2) 0 0 1 1).rx ∧
    (Potential Real.sqrt (1/2) 0 0 1 1).psi
      = 1/(Potential Real.sqrt (1/2) 0 0 1 1).rc
        + 1/(Potential Real.sqrt (1/2) 0 0 1 1).rx - 1*(1/2)
        + 1*((Potential Real.sqrt (1/2) 0 0 1 1).rc^2 - 0^2) := by
  have hrc : 0 < (Potential Real.sqrt (1/2) 0 0 1 1).rc := by
    simp only [Potential]
    exact Real.sqrt_pos.mpr (by norm_num)
  have hrx : 0 < (Potential Real.sqrt (1/2) 0 0 1 1).rx := by
    simp only [Potential]
    exact Real.sqrt_pos.mpr (by norm_num)
  exact ⟨hrc, hrx,
    (potential_evaluator_matches_spec (1/2) 0 0 1 1 hrc hrx).2.2.1⟩

/-- C9: for `q = 0` the `psi` returned by `Potential` is exactly the
single-body form `1/rc + qp1by2om2·(rc²−z²)`. -/
theorem potential_single_body_reduction (x y z c : ℝ)
    (hrc : 0 < (Potential Real.sqrt x y z 0 c).rc)
    (hrx : 0 < (Potential Real.sqrt x y z 0 c).rx) :
    (Potential Real.sqrt x y z 0 c).psi
      = 1/(Potential Real.sqrt x y z 0 c).rc
        + c*((Potential Real.sqrt x y z 0 c).rc^2 - z^2) := by
  have h0 : (0:ℝ) ≤ x^2 + y^2 + z^2 := by positivity
  simp only [Potential]
  rw [Real.sq_sqrt h0]
  ring

/-! Concrete evaluations over `ℚ` with `Rat.sqrt`.  Every square-root argument
below is a perfect square of a rational, where `Rat.sqrt` returns the exact
real square root. -/

theorem ratSqrt_of_sq {x y : ℚ} (h : x = y * y) (hy : 0 ≤ y) :
    Rat.sqrt x = y := by
  rw [h, Rat.sqrt_eq, abs_of_nonneg hy]

theorem saddleGo_succ (sqrt : K → K) (q c : K) (n : ℕ) (x : K) :
    saddleGo sqrt q c (n+1) x
      = (if 1/100000 < |(saddleBody sqrt q c x).1/(saddleBody sqrt q c x).2|
          then saddleGo sqrt q c n (saddleBody sqrt q c x).2
          else some (saddleBody sqrt q c x).2) := rfl


theorem saddle_example_step :
    saddleBody Rat.sqrt 56 (57/2) saddleX0 = (saddleDx, saddleX1) := by
  have habs : |(99999/100000 : ℚ)| = 99999/100000 :=
    abs_of_pos (by norm_num)
  simp only [saddleBody, saddleX0, saddleDx, saddleX1]
  rw [habs]
  rw [show ((99999:ℚ)/100000)^2 + 1 - 2*(99999/100000)
        = (1/100000)*(1/100000) by norm_num]
  rw [ratSqrt_of_sq rfl (by norm_num)]
  simp only [Prod.mk.injEq]
  constructor <;> norm_num

theorem saddle_example_go :
    saddleGo Rat.sqrt 56 (57/2) 1 saddleX0 = some saddleX1 := by
  have hc : ¬ (1/100000 < |(saddleBody Rat.sqrt 56 (57/2) saddleX0).1
        / (saddleBody Rat.sqrt 56 (57/2) saddleX0).2|) := by
    rw [saddle_example_step]
    show ¬ ((1:ℚ)/100000 < |saddleDx / saddleX1|)
    rw [show saddleDx / saddleX1
          = -(559988800055999410011499943/111996080044799890998880005600000 : ℚ) by
        simp only [saddleDx, saddleX1]; norm_num]
    rw [abs_of_neg (by norm_num)]
    norm_num
  rw [show (1:ℕ) = 0+1 from rfl, saddleGo_succ, if_neg hc, saddle_example_step]

theorem saddle_scn_s1 :
    saddleBody Rat.sqrt 56 (57/2) (1/2) = (scnDx1, scnX1) := by
  have habs : |(1/2 : ℚ)| = 1/2 := abs_of_pos (by norm_num)
  simp only [saddleBody, scnDx1, scnX1]
  rw [habs]
  rw [show ((1:ℚ)/2)^2 + 1 - 2*(1/2) = (1/2)*(1/2) by norm_num]
  rw [ratSqrt_of_sq rfl (by norm_num)]
  simp only [Prod.mk.injEq]
  constructor <;> norm_num

theorem saddle_scn_s2 :
    saddleBody Rat.sqrt 56 (57/2) scnX1 = (scnDx2, scnX2) := by
  have habs : |(scnX1 : ℚ)| = scnX1 := abs_of_pos (by rw [scnX1]; norm_num)
  simp only [saddleBody, scnDx2, scnX2]
  rw [habs]
  rw [show (scnX1 : ℚ)^2 + 1 - 2*scnX1 = (677/969)*(677/969) by rw [scnX1]; norm_num]
  rw [ratSqrt_of_sq rfl (by norm_num)]
  simp only [scnX1, Prod.mk.injEq]
  constructor <;> norm_num

theorem saddle_scn_s3 :
    saddleBody Rat.sqrt 56 (57/2) scnX2 = (scnDx3, scnX3) := by
  have habs : |(scnX2 : ℚ)| = scnX2 := abs_of_pos (by rw [scnX2]; norm_num)
  simp only [saddleBody, scnDx3, scnX3]
  rw [habs]
  rw [show (scnX2 : ℚ)^2 + 1 - 2*scnX2 = (1487994650752641079/1771038790374617013)*(1487994650752641079/1771038790374617013) by rw [scnX2]; norm_num]
  rw [ratSqrt_of_sq rfl (by norm_num)]
  simp only [scnX2, Prod.mk.injEq]
  constructor <;> norm_num

theorem saddle_scn_s4 :
    saddleBody Rat.sqrt 56 (57/2) scnX3 = (scnDx4, scnX4) := by
  have habs : |(scnX3 : ℚ)| = scnX3 := abs_of_pos (by rw [scnX3]; norm_num)
  simp only [saddleBody, scnDx4, scnX4]
  rw [habs]
  rw [show (scnX3 : ℚ)^2 + 1 - 2*scnX3 = (22841488602085391009372989385171002908666996111699880208810038387261421536762219949956148178106937421831506956/27484733375300074310382214121372740847819944807921213173195189328320734485936599823637242422581369919752627007)*(22841488602085391009372989385171002908666996111699880208810038387261421536762219949956148178106937421831506956/27484733375300074310382214121372740847819944807921213173195189328320734485936599823637242422581369919752627007) by rw [scnX3]; norm_num]
  rw [ratSqrt_of_sq rfl (by norm_num)]
  simp only [scnX3, Prod.mk.injEq]
  constructor <;> norm_num

theorem saddle_scn_s5 :
    saddleBody Rat.sqrt 56 (57/2) scnX4 = (scnDx5, scnX5) := by
  have habs : |(scnX4 : ℚ)| = scnX4 := abs_of_pos (by rw [scnX4]; norm_num)
  simp only [saddleBody, scnDx5, scnX5]
  rw [habs]
  rw [show (scnX4 : ℚ)^2 + 1 - 2*scnX4 = (41302293901571316435811654597858730607878969611057212277958111947800239592520959222604370273169622270424873963070169591684402413493554147571080809279899074493957242718713634564202640747724759784923785041912019672176188471074104017399194544301858050959138806398438719173779550187564987920514088377404454192862602865193349774881520195500810541487252605879566190170904441551947593253078533955859958374256217137653086638031394166003064307908152304573337674827275819334249931000411245934285276295363687429399073590852326780661833348934626080728394780148789013298382980315083985867482701664824847401275490248011888102914162702959449444014108133689847246582049002/49727604689581016109969292779348872933983128214881247723997256568149053627174192531927240746119846153963523011206232796853475706064732097608550125659843580644605639675461709089249488986878795300457941610416799030318314288027434774978554455152235454137743064257688102551122549757760323010998288050835875145888016039610088395553707311919056770469871486380121701825375580996556951308614137817314319849426223374619619127931361348498974636800128574556465826126501147745595001988087689741495556904497524847472390608563817742115247412986693610303086838082560800916661899870800446404057069512995001394281162649682923647779118645903403060535663034228904270023773119)*(41302293901571316435811654597858730607878969611057212277958111947800239592520959222604370273169622270424873963070169591684402413493554147571080809279899074493957242718713634564202640747724759784923785041912019672176188471074104017399194544301858050959138806398438719173779550187564987920514088377404454192862602865193349774881520195500810541487252605879566190170904441551947593253078533955859958374256217137653086638031394166003064307908152304573337674827275819334249931000411245934285276295363687429399073590852326780661833348934626080728394780148789013298382980315083985867482701664824847401275490248011888102914162702959449444014108133689847246582049002/49727604689581016109969292779348872933983128214881247723997256568149053627174192531927240746119846153963523011206232796853475706064732097608550125659843580644605639675461709089249488986878795300457941610416799030318314288027434774978554455152235454137743064257688102551122549757760323010998288050835875145888016039610088395553707311919056770469871486380121701825375580996556951308614137817314319849426223374619619127931361348498974636800128574556465826126501147745595001988087689741495556904497524847472390608563817742115247412986693610303086838082560800916661899870800446404057069512995001394281162649682923647779118645903403060535663034228904270023773119) by rw [scnX4]; norm_num]
  rw [ratSqrt_of_sq rfl (by norm_num)]
  simp only [scnX4, Prod.mk.injEq]
  constructor <;> norm_num

theorem saddle_scenario_go :
    saddleGo Rat.sqrt 56 (57/2) 50 (1/2) = some scnX5 := by
  have hc1 : 1/100000 < |(saddleBody Rat.sqrt 56 (57/2) (1/2)).1
      /(saddleBody Rat.sqrt 56 (57/2) (1/2)).2| := by
    rw [saddle_scn_s1]
    show (1:ℚ)/100000 < |scnDx1 / scnX1|
    rw [show (scnDx1 : ℚ) / scnX1 = -385/584 by
      rw [scnDx1, scnX1]; norm_num]
    rw [abs_of_neg (by norm_num)]
    norm_num
  have hc2 : 1/100000 < |(saddleBody Rat.sqrt 56 (57/2) scnX1).1
      /(saddleBody Rat.sqrt 56 (57/2) scnX1).2| := by
    rw [saddle_scn_s2]
    show (1:ℚ)/100000 < |scnDx2 / scnX2|
    rw [show (scnDx2 : ℚ) / scnX2 = -29184517603423875/32957194339545143 by
      rw [scnDx2, scnX2]; norm_num]
    rw [abs_of_neg (by norm_num)]
    norm_num
  have hc3 : 1/100000 < |(saddleBody Rat.sqrt 56 (57/2) scnX2).1
      /(saddleBody Rat.sqrt 56 (57/2) scnX2).2| := by
    rw [saddle_scn_s3]
    show (1:ℚ)/100000 < |scnDx3 / scnX3|
    rw [show (scnDx3 : ℚ) / scnX3 = 55037463223702814966933844681770228688247607985885876658646985275965589920113058824418917626563056096796875/1019414072883354545155783462975550609313508829316454759928653628374938729777537614039760757015383053281099577 by
      rw [scnDx3, scnX3]; norm_num]
    rw [abs_of_pos (by norm_num)]
    norm_num
  have hc4 : 1/100000 < |(saddleBody Rat.sqrt 56 (57/2) scnX3).1
      /(saddleBody Rat.sqrt 56 (57/2) scnX3).2| := by
    rw [saddle_scn_s4]
    show (1:ℚ)/100000 < |scnDx4 / scnX4|
    rw [show (scnDx4 : ℚ) / scnX4 = 2531427179362762179144111339110925164966017158362906730289830868379707831822179731508990520394546633182376967927934136070977587233750175286148050823226159623016676327622328652840397188673309718718069357410872568191893963005187035693372904626642584444306336215619197330367184818878078695356983991964941129283609219844815410274262801425365910614002166339786012610600762151985450544450755989846877867590630055913883589958137941636589197822900607183858094355577290037636445867135511787142837264063994217069000599188933209490329958323107748896819024742508837847598102125687389195601515360099988461897777232565077706574535322675204503992356928194396972656250/874945544540433220248780826766284134533091073559788305396908367151696438133123803098653565013725180913244184182072369168588095237492208028067729202750306521809080530283090909165989326783038139551313536206828399415881618314363691859878538784490422481597693428455761347350061040218181991169011160322418891057143539739320050419988426168426361883769642278271745693757540779635440736660488261556764769962787531365030008641385530020565968790807612441507819956224018478556847007061656384444959625062266184523602169170483981316775372291422995648950974078822522889017105117402888203301865892781064925203672560560335668018488897531506837144968901388350612236231217 by
      rw [scnDx4, scnX4]; norm_num]
    rw [abs_of_pos (by norm_num)]
    norm_num
  have hc5 : ¬ (1/100000 < |(saddleBody Rat.sqrt 56 (57/2) scnX4).1
      /(saddleBody Rat.sqrt 56 (57/2) scnX4).2|) := by
    rw [saddle_scn_s5]
    show ¬ ((1:ℚ)/100000 < |scnDx5 / scnX5|)
    rw [show (scnDx5 : ℚ) / scnX5 = 434640616706017354292581656525619829572140807654292032573143670519583525818259532695801228974595660678405209340990417387099959838968355934438290446345705141276336863924945192721953634448229622276887563425340628149304242502995945952440247130742508422497393399975084748296514264403941506919766259911328150646639050120809410513745315655688258507381742424052985685216109660021523854941720811787502368857674614949823741186592681775234023035238581524967890225951910744729894602912895183644450475650700827083466763646760157231022264482188106104525484794378206068043982663390350805878586422666479026852768153959131761097569239593322967542637681565734894721519390148915112436370062042275530508635897133269666116196827560471083591234582049071041918185715819831926647838874495120034248139120666573943678547118535029140807264296584068517208560492042857034523898419104594019600169619455014730410933877533822409054884891092199082945539896354241905117700965335805262795193310237255211933689738729366660162262267150222778845520149090351810674201136549574011025897147509816209999697951605862466991595488220607104353350013611638019500823680334445522910705124910184074023677705856261700411558941835193733962277491572659129365516719647451270155146538011291805817775355147213967580590118493186991279505169022716625353209048455402534880568486643984400432726646681172987842001123367145020350765094760824708056995155760202638132715210172108447771472088814522168089472642857139868212095967692230647437915031506809695863442271184706368995640570374618472565439248378558293441975896994454895625484708534022423755030794152434462373216163243066426195720386298541029803378433712429541569788403869624715245565238483665363565100106988066683134772715689853404810238418313936620840974422361055461967350369654622382471435599289796801485673457414579233338278445349864845514041905826151539922084323741687701054781176419644747553020233216812742622242477347582473886839048900700376040415112485513444473692912432842815993835814447181752142759805054853353739443739678980843828642166588630623779480827950258792768898289346416705553252675361680303023770565238074865125221047306834644984107799730960456356041054941711261073502569573887159873690967482342039460717813588907488376211438957575737114837563640694015621012320621338854954619357938529574629956144563955966779645290269019420364381807233623962556835297165092171040305255650198698319878866042543498937749702247118149125957530850041650826307798589457082910338963739426101117362015510573058929097461951305233059657892079152228980639257903145215083882669201363213324034728929028845145446390008230294017664847005535992426362728391274649104599381859623995542153298241288785803398801935172004903436970621440688000766687875632437044466266280725323015208705352953696224096512714257517880454884610316199445827460300080556125765518548534629946509717617628758709520702339135573173494472908010173801272968226730946354917964067530915305434316604576275025507294116163959762623146239881372180598765374186741589356039646242825721754216732891674260183947497402458128763943596089835546226988636447908902731922923711370198154418644919563220740683705298242009231587003659397638957068639998144218803683294591941300163893721706401349468224223655252128849918715433821201264853578551057124418301097391732839629384346111754255833958934201713257957964546921967634010534466241436356101309244017892320716484031070666367716835165302124967041679803984385818186874834415349494551007951831314639392890909345040506544267023887759074750617149064755617743591666519919299940000835433172401431041178520889828448294215517814308746086044276885322066604262213993814986917864918073522935350940650225627313370783111588606497772986154344894196135767879099021697141090057731350884166510113350465298048961304749527812575644958975870008350216118327577839501868880678451595152036584308220681411652093328554508272076205792639055331885118539407849311828613281250000/61331043188224446536912692766711975178513041807178351790428861209861277238555640411775216740483311196002008877724141758749391468164086182206071160598957983803992995198863797971717287560535389739333604412006929234226465603507526302114340247635251311384735866562287837176175276501670005045178395281373417498407540452016623353062196123224700359675612096296773084753568082376865466585587567053964834533018715967650727311046081314850688459111057794702942480389940049312520666767788629816716978756144196439966695882758823086955440499948888709255936137239732838133165832261737721543154573468753870189781154121661843350094385354923586178795221534144747611729116548617527603124425946569471534670942280479138441330710835362642828253571546222850097416028752706529954495096588344750672198531991393246481793282016399245005533655487137993085664928016537926944858270711820552398736571030867919558991189924356001165470828907523160181779325757864244631176463247804002711714512097456070270815642931105008036637418541192084410763368345902821931783836464589510457149448268578052221073749707402463611656810280214822582066787583318450392634358975027095804991393928563159733758223283677825136463171847293458294273675508341335386971027926394721600353116590193269325328003658493201970952024668726375991332353755310617403428622650272634181550774375657763562047489592007747405212125727163421559867470128751063166855900101022767685065275684108969665811217824545749184490107413895522569765941737678146455005448265931818122214973028778226341839605067993404653708909638577551019845688913625122434213609381610807218771813520040885865167088262745428942675239657537566024234199948321023376428085849824093669543569204700135695400893192394802291056447133080727663662597799498560034789179066287546191913968924691736116078827623844522813214728040824796337400639799615093971490387883145792118853345536973249847010742167402132401504500735794613689199007462876701077268420095425316347628363380552416451470927829965638700089350955079716341439546634088329794011371318214317786403914925154016876509217279770226710934022093642760858647805007345650788069100667970372960818127808747689254767924082034250307428357701305845385790318145908730345938003331048508080618139097175480633077505521929374922123964825065892344299841424577056534814279918842588835184477068414383611770784664349171760815567720831933844090114371484074989017841572443159756768089097699467172840895216593605769473627467634248231021806427463897269960618294268654315941273988991635512167748359423837615431026421910616921269870672172418455037567649484745793082006424436625136563969910304078763127353216613175348335434536570117045587047556065652915558489901495709064213350606854764760244560585740548685671581185441489371351229179662245276663515186732264245024474673531480981610308631220385551718685988576558699207167843585738642442656133755463678312627114711239989705667683746434243044811322356241742340784183023522252197068666251028319192591311262704095569171580415992674456033626718645384319392295085681601988890425708790023663721017903636378370595858158902724925496255172099867745327136857655055591836055158205808066525685004341771801223901894370655385693103992822746486773255086724980531912567183095008493581077339204163590842419502671687901909630348546018209846310169350530042070783811227811542433621181996805547272353199268391581090944074124419333196131782778282458746821963107335061718214889692882786093244026073328623377453730376335161391724890741485401884290789140972845321880560195731553205551852977147265490407212730588463128682607333959952460217127398586120621823013372142737284656057364820259934881047440030103002623848877756134265691329133898885584967083508731966631584807223813487562583530279248577158760460134492085990404728955776104677668934713940154897841004351146490788524741147734068906537537899218451815910240572891304776655486993852277631696936751065640152243806860479169966325973062986946973321 by
      rw [scnDx5, scnX5]; norm_num]
    rw [abs_of_pos (by norm_num)]
    norm_num
  rw [show (50:ℕ) = 49+1 from rfl, saddleGo_succ, if_pos hc1, saddle_scn_s1]
  show saddleGo Rat.sqrt 56 (57/2) 49 scnX1 = some scnX5
  rw [show (49:ℕ) = 48+1 from rfl, saddleGo_succ, if_pos hc2, saddle_scn_s2]
  show saddleGo Rat.sqrt 56 (57/2) 48 scnX2 = some scnX5
  rw [show (48:ℕ) = 47+1 from rfl, saddleGo_succ, if_pos hc3, saddle_scn_s3]
  show saddleGo Rat.sqrt 56 (57/2) 47 scnX3 = some scnX5
  rw [show (47:ℕ) = 46+1 from rfl, saddleGo_succ, if_pos hc4, saddle_scn_s4]
  show saddleGo Rat.sqrt 56 (57/2) 46 scnX4 = some scnX5
  rw [show (46:ℕ) = 45+1 from rfl, saddleGo_succ, if_neg hc5, saddle_scn_s5]

theorem saddle_scenario_stationary :
    |(Potential Rat.sqrt scnX5 0 0 56 (57/2)).dpsidx| ≤ 1/100000 := by
  have h1 : Rat.sqrt ((scnX5:ℚ)^2 + 0^2 + 0^2) = scnX5 := by
    refine ratSqrt_of_sq ?_ (by rw [scnX5]; norm_num)
    rw [scnX5]
    norm_num
  have h2 : Rat.sqrt ((scnX5:ℚ)^2 + 0^2 + 0^2 + 1 - 2*scnX5)
      = 2903542144727647387971723382549800041554124845833026175029366975022628694445117657924252535113336076737423321554474606936257072511577081892617011565661465136703002857114143521149919571402771957044471037811645124583374682808704963544529305695903508067731273750643681824402349713971894857768630399340488305483984140962214078415834735464853669059274911509412353044339941455882155242843028334738031918771099174307357469207346714850398007323488132145397715368106088633399231852909752653961694094169494573295327627374751249190526769687829016423209102079001665504970885545100365804247023490645447621565046823240213534824291277791353163678649655309251543275114914451832755115681144044158356345349581183075657943482010300534140123616324854912440981661461696998893809102873302025520708858551589451130919416655355177283478754321590441196651745839777319680894128379167692919906937021157483113433409382068624615604570180976661870463235795836752660016991817584837185332418312598641435249659541149604201351309493571566960086731562703182873026293573861472165503584125043466789960239028155149858422800480107190752021278744426785393372781457462573428798986534232516797956893911751507404949460529751594359386341536993283231268054824323905452372904291426440132033798460358732077955375714801828372062224443674074602540644164137777084727993942291330915117344545556233730417269276148454362309308106341033947189133529886043704608419435255556811048684107653316750093478726675048809843274137940174323138238838110119870522824932175610487787749949215629152399340355893121516248428170154888559795589764663113879160840768805499165176644460523596169301657246126781396523316454338865162609775112758017342699266769667283197694854938685498487296635109409042722497863556346427303712826099111141731674007231416844270403078669251454497282089543902630730671401477438849135689754769169900721273614596975316491213471762714351329306273387065942986101966991405467601280051888497884438544928758452600292739539399922244483110965384808378397066518830962231743578263744560374483287578479081468189047890170873783473593080614321796795850385320212984590529604836980971805574444075270899054370807455106532281071418983598695066691023384015711370411202479637844401923557148103961814713637423336516868342772926576299813742393865743027000618853337602310173560310952547502798672507810369525568138914658138445138985414162025503966071893831321041383766628476521867846206435510716945632849050762935556774136111457621122187704901252580882020191287133326100377836364467036870531386646698219670808775000202661187497409362708089301160851738973334223315935490566818054197508538619639940844266387829266895197691580462107920474017555183179763159628585861888384491596256029351130638712886347543669128625915314096831146701331278417177030705403368595582623594355989174832525597502028033199790272978158180689108045979152888915889607528683475030040493848171842830130394643307997612271653463334658289932554680565493355339846104201139837927016752059531211371771572946509173465274024349940967751288886305024579524156313991622800474835753574626679040518552662588439515113945880443082384347553600130659099942323735039504651819316301474669484235407395255644540921498426349506096402433202624822066484236934013085660070759930688050452195769237401069339258109056389416776977293208773755409188426896042807801888109980118616432643139026746938025322990212178431012523149190015762995571145929919799061818009196306890028506861775193207638005812221098662767185923690696012847796642181950934444054638712521037926283508090984341616602100240042559823310115910002001811937362879491910360604306087143637779987567479307355261117008448719223942108517728720320924644089269327011481293078392983305820427678624892398581820478743797988222781319845432510400344960526485938863206830621713672344405838545355516839379922997434647289305971640627471914778685590491431644787598755188712383733455018174562364446389939450643757038511379526/3495844687213641209614828810548160624844957770983129757408588419772873186336699862677823693537497186219455836933343643794924248987642091189457793171585163371634547975133992762511900239593353666053545668893279721935104029058106328451598105021122872425949862042626608139211337859282119262909274104361469851704642947339090644988145895540815546270774968729597894810769323377230710368518759643989723680747041922703039316776378999163628053830017285698920798212483703551901228401771585864527400055423107107130957907711725050627497940228011171705540401870031492215844573931907236877963875608292878611512995177149949400444997403783987592782177697098401366979560516665960585216683405860923467771004717741174294784881894396499694358688877763525658503324302318470476986401578719804566473364179579537054747427397749000468654392348701960313977420008994615393005953568363882524868867339091162479022864402457272638554521119290027875013693672424169752188466696169804013667747863536312481889411426757877884188703607898721248715117801067962700058470249016818770338890075171540917077233750538698891703819665029416312572858751298375809013046914626765397489703543735980224331999377540402225861477336436042516730763654158436475486974757351479226497728802288349707910764595338869121148113312480649319847441232258070897147786358149778190403905947008753815925882241325580775236784172384283101646285803728409233502427057034419426498347149227231460769716442090045275752355022651401929504170589577495890788406590001317744813589246430901373221824737363112712008471619361762830308478075450503294821125082123429572191839333887063805550168757655184594946195504417622246542650604483576723972531415500952770555214447449314165712127701260405410789278804540807155184693890981574027595595271236315552777764089736358645140692302729978281935554814939940760215536186706675414078757808950678060136865136801021965080652181014865627135146019786999621958013957562763149203288395613455691893382409030076063467507885812032733864581355798120342102182020834146671617485016845054411916924918130283410015469954539709757772051432135144623190708350016206479142666383152092688499321147498921797947007578531367602777404094634301509448166944670331918150353389484618467098984667623627828358580370697953788744050449287628344066200563498616806169681542070625067419761285399379720380828286086357456259526590324407912547270779562653864120267672229688044809976845473505203872491575612807443125496586075893696794145866820922545334029353452380148720888927737639121529202697931827519681284105549056652835330731876127372659881574708486032502514896213338678139972994443102020371500126450671679303551465908978368943462748530976217619088021647255663199370190859011286529660457479885852964064083868955983118108528663569979426408498747533943605710282890069703273268406051139188424596689183626741263109398449829836145324448570157224824573302858507348685552168788590995273647572815116855649482468108388919113060504220262153346301250826209512101736310564375909205779622593336458261934767525624015472300614275047256523399267535499921627010624370272478200127151606457414930676191081279686620633360342154970644688381826276278992875236207519918771319086374678416655525603729995532149664906987494278219257201719553888975306673466285506482600376833213145627705147836490428883626175802332256887926133871714568418538820528379123767967045211760516140119881736991453080286288012307347070534978389108072097684193533737352621540878210765889429278138911319010282972959180199202784874474168710795096265455670442200703062741826400651906998238328570416026463350806914543718155222358991927620609626868365270972352930423261135518223695305067731769462337090757015173617586261625360361547429960951546571132098081487148060253812609185532758214452672059402776990105140487900218106091620436252688350355434283102097255735788053729253081765960046569498803690522294480260097399753886467011308251743073595555941833169690359298946229297 := by
    refine ratSqrt_of_sq ?_ (by norm_num)
    rw [scnX5]
    norm_num
  simp only [Potential]
  rw [h1, h2]
  rw [abs_of_nonpos ?hneg]
  case hneg =>
    rw [scnX5]
    norm_num
  rw [scnX5]
  norm_num

/-- C7 (amended): whenever the `Saddle` loop terminates, it returns the value
`x*` of a final Newton step whose relative size satisfies `|dx/x*| ≤ 1e-5` —
that is the loop's only exit condition, and the axial derivative at `x*` need
not be within `1e-5` of zero (see the counterexample); in the claim's concrete
scenario `q = 56`, `qp1by2om2 = 57/2`, `x0 = 1/2` the solver does converge (in
five exact Newton steps, to `scnX5 ≈ 0.169430`) and there the stationarity
bound `|dpsidx(x*,0,0)| ≤ 1e-5` does hold. -/
theorem saddle_termination_final_step (sqrt : K → K) (q c : K) :
    (∀ (fuel : ℕ) (x0 y : K), saddleGo sqrt q c fuel x0 = some y →
      ∃ xp : K, y = (saddleBody sqrt q c xp).2 ∧
        |(saddleBody sqrt q c xp).1 / y| ≤ 1/100000) ∧
    (saddleGo Rat.sqrt 56 (57/2) 50 (1/2) = some scnX5 ∧
      |(Potential Rat.sqrt scnX5 0 0 56 (57/2)).dpsidx| ≤ 1/100000) :=
  ⟨saddleGo_some_final_step sqrt q c,
    saddle_scenario_go, saddle_scenario_stationary⟩

/-- C7 counterexample: from `x0 = 1 - 1/100000` with `q = 56`,
`qp1by2om2 = 57/2`, the saddle loop terminates (after a single Newton step,
since `|dx/x*| ≈ 5.00008e-6 ≤ 1e-5`), yet the axial first derivative at the
returned point is about `2.49e11`, far outside `1e-5`: termination does not
imply `|dpsidx(x*,0,0)| ≤ ε`. -/
theorem saddle_stationarity_counterexample :
    saddleGo Rat.sqrt 56 (57/2) 1 saddleX0 = some saddleX1 ∧
    1/100000 < |(Potential Rat.sqrt saddleX1 0 0 56 (57/2)).dpsidx| := by
  refine ⟨saddle_example_go, ?_⟩
  have h1 : Rat.sqrt ((saddleX1:ℚ)^2 + 0^2 + 0^2) = saddleX1 := by
    refine ratSqrt_of_sq ?_ (by rw [saddleX1]; norm_num)
    rw [saddleX1]
    norm_num
  have h2 : Rat.sqrt ((saddleX1:ℚ)^2 + 0^2 + 0^2 + 1 - 2*saddleX1)
      = 1679949600503998320000299999/111996640033599946998290017099943 := by
    refine ratSqrt_of_sq ?_ (by norm_num)
    rw [saddleX1]
    norm_num
  simp only [Potential]
  rw [h1, h2]
  rw [abs_of_pos ?hpos]
  case hpos =>
    rw [saddleX1]
    norm_num
  rw [saddleX1]
  norm_num

/-- Witness for the amended C7 at the concrete terminating input. -/
theorem saddle_termination_final_step_witness :
    ∃ xp : ℚ, saddleX1 = (saddleBody Rat.sqrt 56 (57/2) xp).2 ∧
      |(saddleBody Rat.sqrt 56 (57/2) xp).1 / saddleX1| ≤ 1/100000 :=
  (saddle_termination_final_step Rat.sqrt 56 (57/2)).1 1 saddleX0 saddleX1
    saddle_example_go

/-- C5 counterexample: at `(x, y, z) = (1/2, 0, 0)`, `q = 1`, `omega = 2`, the
`psi` returned by `Get_potential` (internal coefficient `(q+1)/2*omega^2 = 4`)
differs from the `psi` that `Potential` returns for the claimed coefficient
`(q+1)/(2*omega^2) = 1/4`: the values are `9/2` and `57/16`. -/
theorem get_potential_coeff_counterexample :
    (Get_potential Rat.sqrt (1/2) 0 0 1 2).psi
      ≠ (Potential Rat.sqrt (1/2) 0 0 1 ((1+1)/(2*2^2))).psi := by
  have h1 : Rat.sqrt (((1:ℚ)/2)^2 + 0^2 + 0^2) = 1/2 :=
    ratSqrt_of_sq (by norm_num) (by norm_num)
  have h2 : Rat.sqrt (((1:ℚ)/2)^2 + 0^2 + 0^2 + 1 - 2*(1/2)) = 1/2 :=
    ratSqrt_of_sq (by norm_num) (by norm_num)
  simp only [Get_potential, Potential]
  rw [h1, h2]
  norm_num

theorem radiusGo_body_example :
    radiusBody Rat.sqrt (-1) 0 0 (41/12) 1 1 (1/2) = (0, 1/2) := by
  have h1 : Rat.sqrt (((1:ℚ)/2*(-1))^2 + ((1:ℚ)/2*0)^2 + ((1:ℚ)/2*0)^2)
      = 1/2 := ratSqrt_of_sq (by norm_num) (by norm_num)
  have h2 : Rat.sqrt (((1:ℚ)/2*(-1))^2 + ((1:ℚ)/2*0)^2 + ((1:ℚ)/2*0)^2
        + 1 - 2*(1/2*(-1))) = 3/2 := ratSqrt_of_sq (by norm_num) (by norm_num)
  simp only [radiusBody]
  rw [h1, h2]
  simp only [Prod.mk.injEq]
  norm_num

/-- C8 counterexample: at a concrete call (`direction (-1,0,0)`,
`psi0 = 41/12`, `r0 = 1/2`, `q = 1`, `qp1by2om2 = 1`, chosen so that the first
Newton step converges immediately) the solver returns `1/2`, which is the
behaviour of the configurable model at the hard-coded defaults and differs
from the behaviour an overridden configuration (iteration cap `0`) would
produce: none of the solver's seven parameters can override the constants. -/
theorem constants_not_overridable_counterexample :
    Radius Rat.sqrt (-1) 0 0 (41/12) (1/2) 1 1 = 1/2 ∧
    RadiusCfg Rat.sqrt (1/100000) 0 (-(9999/100)) (-1) 0 0 (41/12) (1/2) 1 1
      = -(9999/100) ∧
    Radius Rat.sqrt (-1) 0 0 (41/12) (1/2) 1 1
      ≠ RadiusCfg Rat.sqrt (1/100000) 0 (-(9999/100)) (-1) 0 0 (41/12) (1/2) 1 1 := by
  have h1 : Radius Rat.sqrt (-1) 0 0 (41/12) (1/2) 1 1 = 1/2 := by
    unfold Radius
    rw [show (50:ℕ) = 49+1 from rfl, radiusGo_succ, radiusGo_body_example]
    rw [if_neg (by norm_num : ¬ ((1:ℚ)/100000 < |((0:ℚ), (1/2:ℚ)).1|))]
  have h2 : RadiusCfg Rat.sqrt (1/100000) 0 (-(9999/100))
      (-1) 0 0 (41/12) (1/2) 1 1 = -(9999/100) := rfl
  exact ⟨h1, h2, by rw [h1, h2]; norm_num⟩

/-- Witness for C9 at the point `(0, 3, 4)` with `qp1by2om2 = 1`. -/
theorem potential_single_body_reduction_witness :
    0 < (Potential Real.sqrt 0 3 4 0 1).rc ∧
    0 < (Potential Real.sqrt 0 3 4 0 1).rx ∧
    (Potential Real.sqrt 0 3 4 0 1).psi
      = 1/(Potential Real.sqrt 0 3 4 0 1).rc
        + 1*((Potential Real.sqrt 0 3 4 0 1).rc^2 - 4^2) := by
  have hrc : 0 < (Potential Real.sqrt 0 3 4 0 1).rc := by
    simp only [Potential]
    exact Real.sqrt_pos.mpr (by norm_num)
  have hrx : 0 < (Potential Real.sqrt 0 3 4 0 1).rx := by
    simp only [Potential]
    exact Real.sqrt_pos.mpr (by norm_num)
  exact ⟨hrc, hrx, potential_single_body_reduction 0 3 4 1 hrc hrx⟩

end Icarus
